import Mathlib

/-!
Verification of the Lazulite AI PPT Generator front-end workflow
(App component in `src/unnamed/part_000`, APIService in
`src/backend-architecture.md`).

The development shallowly embeds:
  * the five field-extraction regular expressions of `extractPromptDetails`
    (a small backtracking matcher faithful to JavaScript regex semantics for
    the constructs those patterns use);
  * the data model (`ProductContent`, `MultiProductResponse`, `Message`);
  * the simulated-content generators (`getSimulatedContent` in
    APIService and the inline demo fallback of `extractProductContent`);
  * the App state machine: `handleSendMessage` (split at its await point),
    `handleApproval`, `pollPPTStatus` (one tick), and the editing handlers,
    with external calls supplied as oracle parameters.
-/

/-! ## Character classes used by the prompt regexes -/

/-- JavaScript `\s` restricted to the ASCII whitespace characters
(the inputs under verification contain only plain spaces). -/
def isWsChar (c : Char) : Bool :=
  c = ' ' || c = '\t' || c = '\n' || c = '\r' || c = '\x0b' || c = '\x0c'

/-- The character classes appearing in the five regexes of
`extractPromptDetails` (src/unnamed/part_000 lines 6-20). -/
inductive CharClass
  | notQuote      -- `[^"']`
  | quote         -- `["']`
  | ws            -- `\s`
  | alpha         -- `[A-Za-z]`
  | digit         -- `\d`
  | alphaWs       -- `[A-Za-z\s]`
  | alnumCommaWs  -- `[A-Za-z0-9,\s]`
deriving DecidableEq

def CharClass.memb : CharClass → Char → Bool
  | .notQuote, c => !(c = '"' || c = '\'')
  | .quote, c => c = '"' || c = '\''
  | .ws, c => isWsChar c
  | .alpha, c => ('A' ≤ c && c ≤ 'Z') || ('a' ≤ c && c ≤ 'z')
  | .digit, c => '0' ≤ c && c ≤ '9'
  | .alphaWs, c => ('A' ≤ c && c ≤ 'Z') || ('a' ≤ c && c ≤ 'z') || isWsChar c
  | .alnumCommaWs, c =>
      ('A' ≤ c && c ≤ 'Z') || ('a' ≤ c && c ≤ 'z') || ('0' ≤ c && c ≤ '9')
        || c = ',' || isWsChar c

/-! ## Regex items and the backtracking matcher

The five source regexes are sequences of these items; every quantifier in
them applies to a single character class or character, and alternation only
occurs between literal words, so this fragment covers them exactly.  All
patterns carry the `i` flag, hence literals compare case-insensitively. -/

inductive RItem
  | lit (l : List Char)             -- literal word, case-insensitive
  | alts (ls : List (List Char))    -- `(?:a|b|…)` over literal words, in order
  | one (k : CharClass)
  | opt (k : CharClass)             -- greedy `?`
  | optChar (c : Char)              -- greedy `?` on a single literal character
  | star (k : CharClass)            -- greedy `*`
  | plus (k : CharClass)            -- greedy `+`
  | rep (k : CharClass) (lo hi : Nat)  -- greedy `{lo,hi}`

/-- Case-insensitive literal match; returns the remaining input. -/
def litMatch : List Char → List Char → Option (List Char)
  | [], s => some s
  | _ :: _, [] => none
  | p :: ps, c :: cs => if p.toLower = c.toLower then litMatch ps cs else none

/-- Remainders after matching a class zero or more times, greedily:
longest consumption first (JavaScript backtracking preference order). -/
def greedyRems (k : CharClass) : List Char → List (List Char)
  | [] => [[]]
  | c :: cs => if k.memb c then greedyRems k cs ++ [c :: cs] else [c :: cs]

/-- Remainders after matching a class between `lo` and `hi` times, greedy. -/
def repRems (k : CharClass) : Nat → Nat → List Char → List (List Char)
  | lo, 0, s => if lo = 0 then [s] else []
  | lo, hi + 1, s =>
      (match s with
        | c :: cs => if k.memb c then repRems k (lo - 1) hi cs else []
        | [] => []) ++ (if lo = 0 then [s] else [])

/-- All remainders after one item, in backtracking preference order. -/
def itemRems : RItem → List Char → List (List Char)
  | .lit l, s => match litMatch l s with | some r => [r] | none => []
  | .alts ls, s =>
      ls.flatMap (fun l => match litMatch l s with | some r => [r] | none => [])
  | .one k, s => match s with
      | c :: cs => if k.memb c then [cs] else []
      | [] => []
  | .opt k, s => match s with
      | c :: cs => if k.memb c then [cs, c :: cs] else [c :: cs]
      | [] => [[]]
  | .optChar ch, s => match s with
      | c :: cs => if c.toLower = ch.toLower then [cs, c :: cs] else [c :: cs]
      | [] => [[]]
  | .star k, s => greedyRems k s
  | .plus k, s => match s with
      | c :: cs => if k.memb c then greedyRems k cs else []
      | [] => []
  | .rep k lo hi, s => repRems k lo hi s

/-- All remainders after a sequence of items, in preference order. -/
def seqRems : List RItem → List Char → List (List Char)
  | [], s => [s]
  | it :: its, s => (itemRems it s).flatMap (seqRems its)

def pickFirst : List (Option α) → Option α
  | [] => none
  | o :: rest => match o with | some a => some a | none => pickFirst rest

/-- Try the pattern `pre (cap) post` anchored at the head of `s`; returns the
text of the single capture group on success, following JavaScript's
backtracking preference order. -/
def firstCap (pre cap post : List RItem) (s : List Char) : Option (List Char) :=
  pickFirst ((seqRems pre s).map (fun r1 =>
    pickFirst ((seqRems cap r1).map (fun r2 =>
      if seqRems post r2 = [] then none
      else some (r1.take (r1.length - r2.length))))))

/-- Unanchored search (JavaScript `String.match`): try each start position
left to right; return the first capture found. -/
def searchCap (pre cap post : List RItem) : List Char → Option (List Char)
  | [] => firstCap pre cap post []
  | c :: cs =>
    match firstCap pre cap post (c :: cs) with
    | some r => some r
    | none => searchCap pre cap post cs

/-! ## extractPromptDetails (src/unnamed/part_000 lines 6-20) -/

/-- JavaScript `String.trim` on a character list. -/
def trimChars (cs : List Char) : List Char :=
  ((cs.dropWhile isWsChar).reverse.dropWhile isWsChar).reverse

/-- JavaScript `String.split(',')`. -/
def splitCommas : List Char → List (List Char)
  | [] => [[]]
  | c :: cs =>
    if c = ',' then [] :: splitCommas cs
    else
      match splitCommas cs with
      | g :: gs => (c :: g) :: gs
      | [] => [[c]]

/-- A matched capture is trimmed; a failed match yields the empty string. -/
def capToField (o : Option (List Char)) : String :=
  match o with
  | some cs => String.mk (trimChars cs)
  | none => ""

structure PromptDetails where
  eventName : String
  eventDate : String
  eventLocation : String
  salesperson : String
  products : List String
deriving DecidableEq

/-- Regex `/(?:for|event|Event)\s*["\x27]?([^"\x27]+)["\x27]?/i`. -/
def eventNamePre : List RItem :=
  [.alts ["for".data, "event".data, "Event".data], .star .ws, .opt .quote]

def eventNameCap : List RItem := [.plus .notQuote]

def eventNamePost : List RItem := [.opt .quote]

/-- Regex `/(?:on|date)\s*([A-Za-z]+\s+\d\x7b1,2\x7d,\s*\d\x7b4\x7d)/i`. -/
def eventDatePre : List RItem := [.alts ["on".data, "date".data], .star .ws]

def eventDateCap : List RItem :=
  [.plus .alpha, .plus .ws, .rep .digit 1 2, .lit ",".data, .star .ws,
   .rep .digit 4 4]

/-- Regex `/(?:in|at)\s*([A-Za-z\s]+)/i`. -/
def eventLocationPre : List RItem := [.alts ["in".data, "at".data], .star .ws]

def eventLocationCap : List RItem := [.plus .alphaWs]

/-- Regex `/(?:salesperson|featuring)\s*([A-Za-z\s]+)/i`. -/
def salespersonPre : List RItem :=
  [.alts ["salesperson".data, "featuring".data], .star .ws]

def salespersonCap : List RItem := [.plus .alphaWs]

/-- Regex `/products?:\s*([A-Za-z0-9,\s]+)/i`. -/
def productsPre : List RItem :=
  [.lit "product".data, .optChar 's', .lit ":".data, .star .ws]

def productsCap : List RItem := [.plus .alnumCommaWs]

/-- `extractPromptDetails` from src/unnamed/part_000 lines 6-20: best-effort
field extraction; a failed match leaves the field empty, the products capture
is split on commas, trimmed, and empty entries are dropped. -/
def extractPromptDetails (prompt : String) : PromptDetails :=
  let s := prompt.data
  { eventName := capToField (searchCap eventNamePre eventNameCap eventNamePost s)
    eventDate := capToField (searchCap eventDatePre eventDateCap [] s)
    eventLocation := capToField (searchCap eventLocationPre eventLocationCap [] s)
    salesperson := capToField (searchCap salespersonPre salespersonCap [] s)
    products :=
      match searchCap productsPre productsCap [] s with
      | none => []
      | some cs =>
        ((splitCommas cs).map (fun g => String.mk (trimChars g))).filter
          (fun t => t ≠ "") }

/-- `REQUIRED_FIELDS` from src/unnamed/part_000 lines 22-28 (key, label). -/
def REQUIRED_FIELDS : List (String × String) :=
  [("eventName", "Event Name"), ("eventDate", "Event Date"),
   ("eventLocation", "Event Location"), ("salesperson", "Salesperson Name"),
   ("products", "Products")]

/-- A field is missing when its string is empty (JavaScript falsiness) or,
for products, when the list is empty. -/
def detailMissing (d : PromptDetails) (key : String) : Bool :=
  if key = "products" then d.products.isEmpty
  else if key = "eventName" then d.eventName = ""
  else if key = "eventDate" then d.eventDate = ""
  else if key = "eventLocation" then d.eventLocation = ""
  else if key = "salesperson" then d.salesperson = ""
  else false

/-- The missing-field filter of `handleSendMessage`
(src/unnamed/part_000 lines 163-166), preserving `REQUIRED_FIELDS` order. -/
def missingFields (d : PromptDetails) : List (String × String) :=
  REQUIRED_FIELDS.filter (fun f => detailMissing d f.1)

/-! ## Data model (src/backend-architecture.md lines 675-703) -/

/-- `ProductContent` interface. -/
structure ProductContent where
  product_name : String
  overview : String
  specifications : List String
  content_integration : List String
  infrastructure_requirements : List String
  images : List String
  image_layout : String
deriving DecidableEq

/-- `MultiProductResponse` interface. -/
structure MultiProductResponse where
  products : List ProductContent
  total_products : Nat
  extraction_status : String
deriving DecidableEq

/-- `TaskStatus` interface: `status` is one of
pending / processing / completed / failed; optional fields model the
optional keys of the JSON payload. -/
structure TaskStatus where
  status : String
  download_url : Option String := none
  error_message : Option String := none
deriving DecidableEq

/-! ## encodeURIComponent and the simulated content generator
(src/backend-architecture.md lines 759-787) -/

/-- Characters `encodeURIComponent` leaves unescaped. -/
def isUnreservedChar (c : Char) : Bool :=
  ('A' ≤ c && c ≤ 'Z') || ('a' ≤ c && c ≤ 'z') || ('0' ≤ c && c ≤ '9')
    || c = '-' || c = '_' || c = '.' || c = '!' || c = '~' || c = '*'
    || c = '\'' || c = '(' || c = ')'

def hexDigit (n : Nat) : Char :=
  if n < 10 then Char.ofNat ('0'.toNat + n) else Char.ofNat ('A'.toNat + (n - 10))

/-- UTF-8 encoding of a single code point. -/
def utf8Bytes (c : Char) : List Nat :=
  let n := c.toNat
  if n < 0x80 then [n]
  else if n < 0x800 then [0xC0 + n / 0x40, 0x80 + n % 0x40]
  else if n < 0x10000 then
    [0xE0 + n / 0x1000, 0x80 + (n / 0x40) % 0x40, 0x80 + n % 0x40]
  else
    [0xF0 + n / 0x40000, 0x80 + (n / 0x1000) % 0x40, 0x80 + (n / 0x40) % 0x40,
     0x80 + n % 0x40]

/-- JavaScript `encodeURIComponent`: percent-encodes the UTF-8 bytes of every
character outside the unreserved set. -/
def encodeURIComponent (s : String) : String :=
  String.mk (s.data.flatMap (fun c =>
    if isUnreservedChar c then [c]
    else (utf8Bytes c).flatMap (fun b => ['%', hexDigit (b / 16), hexDigit (b % 16)])))

/-- One simulated product, as built by the `productNames.map` callback of
`APIService.getSimulatedContent` (src/backend-architecture.md lines 760-780).
The layout conditional is the source's
`index === 0 ? "single" : index === 1 ? "side_by_side" : "grid"`. -/
def simulatedProduct (index : Nat) (productName : String) : ProductContent :=
  { product_name := productName
    overview := productName ++ " offers cutting-edge interactive technology solutions designed for modern business environments. This product combines advanced AI capabilities with stunning visual displays to create engaging user experiences."
    specifications :=
      ["High-resolution 4K display with multi-touch interface and gesture recognition",
       "AI-powered facial detection and real-time analytics with cloud connectivity"]
    content_integration :=
      ["Seamless CMS integration with real-time content updates and scheduling",
       "Multi-platform compatibility with cloud-based management dashboard"]
    infrastructure_requirements :=
      ["Stable internet connection (minimum 50 Mbps) with dedicated network access",
       "Dedicated power supply (220V) with UPS backup and climate control"]
    images :=
      ["https://via.placeholder.com/800x600/0066cc/ffffff?text=" ++ encodeURIComponent productName ++ "+Image+1",
       "https://via.placeholder.com/800x600/6600cc/ffffff?text=" ++ encodeURIComponent productName ++ "+Image+2"]
    image_layout :=
      if index = 0 then "single" else if index = 1 then "side_by_side" else "grid" }

/-- JavaScript `Array.map` with the element index (second callback argument),
counting from `i`. -/
def mapWithIndexFrom (f : Nat → α → β) : Nat → List α → List β
  | _, [] => []
  | i, a :: as => f i a :: mapWithIndexFrom f (i + 1) as

/-- `APIService.getSimulatedContent` (src/backend-architecture.md
lines 759-787). -/
def getSimulatedContent (productNames : List String) : MultiProductResponse :=
  let products := mapWithIndexFrom simulatedProduct 0 productNames
  { products := products
    total_products := products.length
    extraction_status := "completed" }

/-! ## The two extraction paths -/

/-- Outcome of the live `fetch` to `/api/extract-content`, supplied as an
oracle: a parsed success body, or any thrown/non-ok failure. -/
inductive FetchOutcome
  | success (r : MultiProductResponse)
  | failure (e : String)
deriving DecidableEq

/-- `APIService.extractProductContent` (src/backend-architecture.md
lines 718-754): in development with the backend unavailable it returns the
simulated content; any error on the live call is caught and also falls back
to the simulated content; otherwise the parsed response is returned.  It
never raises. -/
def APIServiceExtractProductContent (isDev backendAvailable : Bool)
    (fetch : FetchOutcome) (productNames : List String) : MultiProductResponse :=
  if isDev && !backendAvailable then getSimulatedContent productNames
  else
    match fetch with
    | .success r => r
    | .failure _ => getSimulatedContent productNames

/-- The object literal returned by the demo-mode branch of
`extractProductContent` (src/unnamed/part_000 lines 138-152).  These are the
only keys the literal defines: it carries no `products` array and no
`total_products` or `extraction_status` field, although the function is
declared to return a `MultiProductResponse`. -/
structure DemoFallbackLiteral where
  overview : String
  specifications : List String
  content_integration : List String
  infrastructure_requirements : List String
deriving DecidableEq

def demoFallbackLiteral (productNames : List String) : DemoFallbackLiteral :=
  { overview := String.intercalate ", " productNames ++ " offer cutting-edge interactive technology solutions. These products combine advanced AI capabilities with stunning visual displays for enhanced user engagement."
    specifications :=
      ["High-resolution 4K display with touch interface",
       "AI-powered gesture recognition and facial detection"]
    content_integration :=
      ["Seamless CMS integration with real-time content updates",
       "Multi-platform compatibility with cloud-based management"]
    infrastructure_requirements :=
      ["Stable internet connection (minimum 50 Mbps)",
       "Dedicated power supply with backup systems"] }

inductive BackendStatus
  | checking
  | available
  | unavailable
deriving DecidableEq

/-- The runtime value resolved by `extractProductContent`
(src/unnamed/part_000 lines 134-156): the demo literal when
`backendStatus === 'unavailable'`, otherwise whatever
`APIService.extractProductContent` resolves to. -/
inductive ExtractionResponse
  | demo (d : DemoFallbackLiteral)
  | api (r : MultiProductResponse)
deriving DecidableEq

def extractProductContent (backendStatus : BackendStatus)
    (productNames : List String) (isDev backendAvailable : Bool)
    (fetch : FetchOutcome) : ExtractionResponse :=
  if backendStatus = .unavailable then .demo (demoFallbackLiteral productNames)
  else .api (APIServiceExtractProductContent isDev backendAvailable fetch productNames)

/-- Reading the `products` key of the resolved value, as the consuming
JavaScript does: on the demo literal the key is absent, so the read yields
undefined (`none`). -/
def responseProducts : ExtractionResponse → Option (List ProductContent)
  | .demo _ => none
  | .api r => some r.products

/-! ## Conversation messages and App state (src/unnamed/part_000) -/

inductive Sender
  | user
  | ai
deriving DecidableEq

/-- The `Message` interface (src/unnamed/part_000 lines 32-43).  Optional
keys absent from a literal are `none` / `false` (JavaScript undefined is
falsy everywhere the App reads these flags). -/
structure Message where
  id : String
  text : String
  sender : Sender
  timestamp : Nat
  pptDownloadUrl : Option String := none
  approvalRequired : Bool := false
  multiProductData : Option MultiProductResponse := none
  taskId : Option String := none
  isGenerating : Bool := false
deriving DecidableEq

/-- The App component's state hooks that the workflow reads and writes
(src/unnamed/part_000 lines 51-58).  Timestamps are abstracted to the
`Date.now()` value that also provides message ids. -/
structure AppState where
  messages : List Message
  inputText : String
  isLoading : Bool
  pendingApproval : Option Message
  editingProductIndex : Option Nat
  editingContent : Option ProductContent
  backendStatus : BackendStatus
deriving DecidableEq

/-- `referencePrompt` (src/unnamed/part_000 line 30). -/
def referencePrompt : String :=
  "Generate a PowerPoint for the \"Open House Event\" on August 11, 2025 in Dubai featuring salesperson Jasmeet Kaur and slides on the products: AI Photobooth, Kinetic Ceiling, and Kinetic Blooming Flower."

/-- The send guard of `handleSendMessage` (src/unnamed/part_000 line 160):
`!inputText.trim() || isLoading || pendingApproval`. -/
def sendRejected (s : AppState) : Bool :=
  trimChars s.inputText.data = [] || s.isLoading || s.pendingApproval.isSome

/-- Text of the missing-details guidance message
(src/unnamed/part_000 line 174). -/
def guidanceText (labels : List String) : String :=
  "⚠️ Please provide the following missing details in your prompt: "
    ++ String.intercalate ", " labels ++ ".\n\nReference prompt:\n" ++ referencePrompt

/-- First half of `handleSendMessage` (src/unnamed/part_000 lines 159-198),
up to the `await extractProductContent(...)` suspension point: the guard,
the missing-field check with its guidance message, and otherwise appending
the user message, clearing the input and raising `isLoading`.  The second
component is the extraction request issued (`details.products`), `none`
when extraction is not invoked. -/
def handleSendMessageStart (s : AppState) (now : Nat) :
    AppState × Option (List String) :=
  if sendRejected s then (s, none)
  else
    let details := extractPromptDetails s.inputText
    let miss := missingFields details
    if miss ≠ [] then
      ({ s with
          messages := s.messages ++
            [{ id := toString now
               text := guidanceText (miss.map (·.2))
               sender := .ai
               timestamp := now }]
          inputText := "" }, none)
    else
      ({ s with
          messages := s.messages ++
            [{ id := toString now
               text := s.inputText
               sender := .user
               timestamp := now }]
          inputText := ""
          isLoading := true }, some details.products)

/-- Outcome of the awaited extraction call, as the continuation of
`handleSendMessage` observes it: the resolved `multiProductData`, or the
caught error's message. -/
inductive ExtractOutcome
  | ok (mpd : MultiProductResponse)
  | err (e : String)
deriving DecidableEq

/-- Second half of `handleSendMessage` (src/unnamed/part_000 lines
196-223), after the extraction call settles: append the approval request
and record it as the pending approval, or append the failure message; in
both cases `isLoading` is lowered. -/
def handleSendMessageFinish (s : AppState) (now : Nat)
    (outcome : ExtractOutcome) : AppState :=
  match outcome with
  | .ok mpd =>
    let approvalMsg : Message :=
      { id := toString (now + 1)
        text := "I've extracted content for your products from the Lazulite website. Please review and approve:"
        sender := .ai
        timestamp := now
        approvalRequired := true
        multiProductData := some mpd }
    { s with
        messages := s.messages ++ [approvalMsg]
        pendingApproval := some approvalMsg
        isLoading := false }
  | .err e =>
    { s with
        messages := s.messages ++
          [{ id := toString (now + 1)
             text := "❌ Failed to extract product content: " ++ e
             sender := .ai
             timestamp := now }]
        isLoading := false }

/-- One call to `APIService.generatePPT` as issued by `handleApproval`
(src/unnamed/part_000 lines 243-246): the request's `prompt` and
`approved_content` fields. -/
structure GenCall where
  prompt : String
  approved_content : List ProductContent
deriving DecidableEq

/-- `handleApproval` (src/unnamed/part_000 lines 227-273), with the awaited
`generatePPT` outcome as an oracle (`Except`: the error message, or the
returned task id).  The second component lists the generation-submission
calls the handler issued. -/
def handleApproval (s : AppState) (approved : Bool) (now : Nat)
    (genOutcome : Except String String) : AppState × List GenCall :=
  match s.pendingApproval with
  | none => (s, [])
  | some pa =>
    match pa.multiProductData with
    | none => (s, [])
    | some mpd =>
      if approved then
        let generatingMsg : Message :=
          { id := toString (now + 2)
            text := "✅ Content approved! Generating your PowerPoint presentation..."
            sender := .ai
            timestamp := now
            isGenerating := true }
        let call : GenCall := { prompt := s.inputText, approved_content := mpd.products }
        match genOutcome with
        | .ok _taskId =>
          ({ s with
              messages := s.messages ++ [generatingMsg]
              pendingApproval := none }, [call])
        | .error e =>
          ({ s with
              messages := s.messages ++ [generatingMsg] ++
                [{ id := toString (now + 3)
                   text := "❌ Failed to start PPT generation: " ++ e
                   sender := .ai
                   timestamp := now }]
              pendingApproval := none }, [call])
      else
        ({ s with
            messages := s.messages ++
              [{ id := toString (now + 2)
                 text := "❌ Content not approved. You can modify the content using the edit options above, or provide new requirements."
                 sender := .ai
                 timestamp := now }]
            pendingApproval := none }, [])

/-! ## One polling tick (src/unnamed/part_000 lines 276-318) -/

/-- What one tick of the `setInterval` callback observes: the resolved
`TaskStatus`, or the caught transport error's message. -/
inductive PollResult
  | ok (st : TaskStatus)
  | transportError (e : String)
deriving DecidableEq

/-- JavaScript truthiness of an optional string
(undefined and the empty string are falsy). -/
def jsTruthy : Option String → Bool
  | some str => str ≠ ""
  | none => false

/-- JavaScript `a || b` on an optional string against a default. -/
def jsOrElse (o : Option String) (dflt : String) : String :=
  match o with
  | some str => if str = "" then dflt else str
  | none => dflt

/-- One tick of `pollPPTStatus` (src/unnamed/part_000 lines 276-318) acting
on the message list.  The boolean is whether the interval keeps running
(`false` exactly when `clearInterval` was called). -/
def pollStep (msgs : List Message) (now : Nat) (r : PollResult) :
    List Message × Bool :=
  match r with
  | .ok st =>
    if st.status = "completed" && jsTruthy st.download_url then
      (msgs.filter (fun m => !m.isGenerating) ++
        [{ id := toString (now + 4)
           text := "✨ Your presentation has been generated successfully!"
           sender := .ai
           timestamp := now
           pptDownloadUrl := st.download_url }], false)
    else if st.status = "failed" then
      (msgs.filter (fun m => !m.isGenerating) ++
        [{ id := toString (now + 4)
           text := "❌ PPT generation failed: " ++ jsOrElse st.error_message "Unknown error"
           sender := .ai
           timestamp := now }], false)
    else (msgs, true)
  | .transportError e =>
    (msgs.filter (fun m => !m.isGenerating) ++
      [{ id := toString (now + 4)
         text := "❌ Error checking PPT status: " ++ e
         sender := .ai
         timestamp := now }], false)

/-! ## Editing handlers (src/unnamed/part_000 lines 331-362) -/

/-- `handleEditContent` (lines 332-335): open an editing session on the
given product index with a copy of the product as the working draft.
There is no guard: any open session is overwritten. -/
def handleEditContent (s : AppState) (content : ProductContent) (productIndex : Nat) :
    AppState :=
  { s with editingContent := some content, editingProductIndex := some productIndex }

/-- The accumulated effect of the edit-field `onChange` handlers
(src/unnamed/part_000 lines 406, 428, 453, 478), which replace the working
copy while a session is open and do nothing otherwise
(`prev ? \x7b...prev, ...\x7d : null`). -/
def setEditingDraft (s : AppState) (x : ProductContent) : AppState :=
  match s.editingContent with
  | some _ => { s with editingContent := some x }
  | none => s

/-- JavaScript `array.map((product, index) => index === editingProductIndex
? editingContent : product)`, counting from `j`. -/
def replaceFrom (idx : Option Nat) (x : α) : Nat → List α → List α
  | _, [] => []
  | j, p :: ps => (if idx = some j then x else p) :: replaceFrom idx x (j + 1) ps

/-- `handleSaveEdit` (src/unnamed/part_000 lines 337-357): write the working
copy into the pending approval's product list at the editing index, replace
the owning log entry by id, republish the pending approval, and clear the
session.  When `multiProductData` is absent the source throws a TypeError
while building `updatedMessage`, before any state update, so the state is
left unchanged. -/
def handleSaveEdit (s : AppState) : AppState :=
  match s.editingContent, s.pendingApproval with
  | some ec, some pa =>
    match pa.multiProductData with
    | none => s
    | some mpd =>
      let newMpd : MultiProductResponse :=
        { mpd with products := replaceFrom s.editingProductIndex ec 0 mpd.products }
      let updated : Message := { pa with multiProductData := some newMpd }
      { s with
          messages := s.messages.map (fun m => if m.id = pa.id then updated else m)
          pendingApproval := some updated
          editingContent := none
          editingProductIndex := none }
  | _, _ => s

/-- `handleCancelEdit` (src/unnamed/part_000 lines 359-362). -/
def handleCancelEdit (s : AppState) : AppState :=
  { s with editingContent := none, editingProductIndex := none }

/-! ## The operation surface and reachable states -/

/-- Welcome message effect (src/unnamed/part_000 lines 118-131): fires only
while the log is empty, appending the fixed greeting whose tail depends on
the backend status. -/
def welcomeMessage (backendStatus : BackendStatus) (now : Nat) : Message :=
  { id := "1"
    text := "Welcome to Lazulite AI PPT Generator! Enter your event details and products to generate a PowerPoint. Make sure to include:\n• Event Name\n• Event Date\n• Event Location\n• Salesperson Name\n• Products\n\nFor example:\n"
      ++ referencePrompt
      ++ (if backendStatus = .unavailable then
            "\n\n⚠️ Backend is not available. Using demo mode with simulated responses."
          else "\n\n✅ Connected to Lazulite AI backend.")
    sender := .ai
    timestamp := now }

def applyWelcome (s : AppState) (now : Nat) : AppState :=
  if s.messages.isEmpty then
    { s with messages := [welcomeMessage s.backendStatus now] }
  else s

/-- A user- or timer-triggered operation of the workflow, with the outcomes
of the external calls it awaits supplied as data. -/
inductive AppOp
  | setInput (t : String)
  | welcome (now : Nat)
  | sendStart (now : Nat)
  | sendFinish (now : Nat) (o : ExtractOutcome)
  | approval (approved : Bool) (now : Nat) (g : Except String String)
  | beginEdit (c : ProductContent) (i : Nat)
  | draft (x : ProductContent)
  | saveEdit
  | cancelEdit
  | poll (now : Nat) (r : PollResult)

/-- State transition of each operation. -/
def applyOp (s : AppState) : AppOp → AppState
  | .setInput t => { s with inputText := t }
  | .welcome now => applyWelcome s now
  | .sendStart now => (handleSendMessageStart s now).1
  | .sendFinish now o => handleSendMessageFinish s now o
  | .approval approved now g => (handleApproval s approved now g).1
  | .beginEdit c i => handleEditContent s c i
  | .draft x => setEditingDraft s x
  | .saveEdit => handleSaveEdit s
  | .cancelEdit => handleCancelEdit s
  | .poll now r => { s with messages := (pollStep s.messages now r).1 }

/-- When an operation can fire at all.  Typing into the prompt box requires
the textarea to be enabled (src/unnamed/part_000 line 742:
`disabled=\x7bisLoading || !!pendingApproval || !!editingContent\x7d`), and
the extraction continuation only runs after its own send started
(`isLoading` was raised by that send and is lowered by no other operation). -/
def opAllowed (s : AppState) : AppOp → Bool
  | .setInput _ => !(s.isLoading || s.pendingApproval.isSome || s.editingContent.isSome)
  | .sendFinish _ _ => s.isLoading
  | _ => true

/-- Initial component state (src/unnamed/part_000 lines 51-58). -/
def initState (backendStatus : BackendStatus) : AppState :=
  { messages := []
    inputText := ""
    isLoading := false
    pendingApproval := none
    editingProductIndex := none
    editingContent := none
    backendStatus := backendStatus }

/-- States the running component can be in. -/
inductive Reachable : AppState → Prop
  | init (backendStatus : BackendStatus) : Reachable (initState backendStatus)
  | step {s : AppState} (op : AppOp) (hr : Reachable s)
      (hop : opAllowed s op = true) : Reachable (applyOp s op)

/-- Number of live pending approvals held by a state. -/
def pendingCount (s : AppState) : Nat :=
  match s.pendingApproval with
  | some _ => 1
  | none => 0

/-! ## Supporting lemmas on the indexed map and indexed replacement -/

lemma mapWithIndexFrom_get? (f : Nat → α → β) :
    ∀ (l : List α) (j k : Nat),
      (mapWithIndexFrom f j l).get? k = (l.get? k).map (fun a => f (j + k) a) := by
  intro l
  induction l with
  | nil => intro j k; simp [mapWithIndexFrom]
  | cons a as ih =>
    intro j k
    cases k with
    | zero => simp [mapWithIndexFrom]
    | succ k2 =>
      simp only [mapWithIndexFrom, List.get?_cons_succ, ih (j + 1) k2,
        Nat.add_succ, Nat.succ_add]

lemma mapWithIndexFrom_names :
    ∀ (l : List String) (j : Nat),
      (mapWithIndexFrom simulatedProduct j l).map (fun p => p.product_name) = l := by
  intro l
  induction l with
  | nil => intro j; simp [mapWithIndexFrom]
  | cons a as ih => intro j; simp [mapWithIndexFrom, simulatedProduct, ih (j + 1)]

lemma replaceFrom_get? (i : Nat) (x : α) :
    ∀ (l : List α) (j k : Nat),
      (replaceFrom (some i) x j l).get? k
        = (l.get? k).map (fun p => if i = j + k then x else p) := by
  intro l
  induction l with
  | nil => intro j k; simp [replaceFrom]
  | cons a as ih =>
    intro j k
    cases k with
    | zero => simp [replaceFrom]
    | succ k2 =>
      simp only [replaceFrom, List.get?_cons_succ, ih (j + 1) k2,
        Nat.add_succ, Nat.succ_add]

/-! ## C1 -/

/-- C1: the claim says the content-extraction operation, live or fallback,
returns exactly one ProductContent per requested name in input order, and
that the fallback never raises.  The `APIService.getSimulatedContent`
generator does satisfy one-per-name in input order (first conjunct), but
the demo-mode fallback of `extractProductContent` in the App
(src/unnamed/part_000 lines 135-153) resolves to an object literal that has
no `products` key at all, so at the failing input
`backendStatus = unavailable, productNames = ["AI Photobooth"]` the
consuming code reads `undefined` instead of a one-element product list
(second conjunct): the code contradicts its declared
`Promise<MultiProductResponse>` return type and the display component's
unconditional `products.map`. -/
theorem c1_extraction_one_per_name_vs_demo_fallback :
    (∀ productNames : List String,
      (getSimulatedContent productNames).products.map (fun p => p.product_name)
        = productNames) ∧
    responseProducts
      (extractProductContent .unavailable ["AI Photobooth"] true false
        (.failure "network down")) = none := by
  constructor
  · intro productNames
    simpa [getSimulatedContent] using mapWithIndexFrom_names productNames 0
  · rfl

/-! ## C5 -/

/-- Modelled from the spec's words, for comparison in C5 only: the claimed
image-layout assignment "by position index modulo 3". -/
def specLayoutByIndexMod3 (i : Nat) : String :=
  if i % 3 = 0 then "single" else if i % 3 = 1 then "side_by_side" else "grid"

/-- C5 counterexample: at position 3 of a four-name list the generator
produces "grid", while the claimed modulo-3 cycle requires "single". -/
theorem c5_counterexample_layout_index_three :
    ((getSimulatedContent ["a", "b", "c", "d"]).products.get? 3).map
        (fun p => p.image_layout) = some "grid" ∧
      specLayoutByIndexMod3 3 = "single" ∧ ("grid" : String) ≠ "single" := by
  refine ⟨by decide, by decide, by decide⟩

/-- C5 amended: `getSimulatedContent` assigns "single" at position 0,
"side_by_side" at position 1, and "grid" at every later position; the cycle
does not repeat for lists longer than three. -/
theorem c5_layout_single_side_then_grid :
    ∀ (productNames : List String) (i : Nat), i < productNames.length →
      ((getSimulatedContent productNames).products.get? i).map (fun p => p.image_layout)
        = some (if i = 0 then "single" else if i = 1 then "side_by_side" else "grid") := by
  intro productNames i hi
  have hsome : productNames.get? i = some (productNames.get ⟨i, hi⟩) :=
    List.get?_eq_get hi
  show ((mapWithIndexFrom simulatedProduct 0 productNames).get? i).map
      (fun p => p.image_layout) = _
  rw [mapWithIndexFrom_get?, hsome]
  simp only [Option.map_some', simulatedProduct, Nat.zero_add]

/-- Witness for C5's amended theorem at position 2 of a three-name list. -/
theorem c5_layout_witness :
    ((getSimulatedContent ["a", "b", "c"]).products.get? 2).map (fun p => p.image_layout)
      = some (if 2 = 0 then "single" else if 2 = 1 then "side_by_side" else "grid") :=
  c5_layout_single_side_then_grid ["a", "b", "c"] 2 (by decide)

/-! ## C7 -/

/-- A state with an editing session already open on product index 0. -/
def editOpenState : AppState :=
  { messages := []
    inputText := ""
    isLoading := false
    pendingApproval := none
    editingProductIndex := some 0
    editingContent := some (simulatedProduct 0 "A")
    backendStatus := .unavailable }

/-- C7 counterexample: with a session already open on index 0, invoking
`handleEditContent` on index 1 is not refused — it mutates the state,
moving the session to index 1 and replacing the working draft. -/
theorem c7_counterexample_begin_edit_not_refused :
    handleEditContent editOpenState (simulatedProduct 1 "B") 1 ≠ editOpenState ∧
      (handleEditContent editOpenState (simulatedProduct 1 "B") 1).editingProductIndex
        = some 1 ∧
      editOpenState.editingProductIndex = some 0 := by
  refine ⟨fun h => ?_, rfl, rfl⟩
  have := congrArg AppState.editingProductIndex h
  simp [handleEditContent, editOpenState] at this

/-- C7 amended: `handleEditContent` has no guard; invoked while an editing
session is open it succeeds and replaces the session — the new index and a
copy of the new product become the (single) session, the previous working
draft is discarded, and no other component of the state changes.  At most
one session exists at any time because the session is a single optional
state holder. -/
theorem c7_begin_edit_replaces_open_session :
    ∀ (s : AppState) (old c : ProductContent) (i : Nat),
      s.editingContent = some old →
      (handleEditContent s c i).editingContent = some c ∧
      (handleEditContent s c i).editingProductIndex = some i ∧
      (handleEditContent s c i).messages = s.messages ∧
      (handleEditContent s c i).pendingApproval = s.pendingApproval ∧
      (handleEditContent s c i).inputText = s.inputText ∧
      (handleEditContent s c i).isLoading = s.isLoading := by
  intro s old c i _h
  exact ⟨rfl, rfl, rfl, rfl, rfl, rfl⟩

/-- Witness for C7's amended theorem. -/
theorem c7_begin_edit_witness :
    (handleEditContent editOpenState (simulatedProduct 1 "B") 1).editingContent
        = some (simulatedProduct 1 "B") ∧
      (handleEditContent editOpenState (simulatedProduct 1 "B") 1).editingProductIndex
        = some 1 ∧
      (handleEditContent editOpenState (simulatedProduct 1 "B") 1).messages
        = editOpenState.messages ∧
      (handleEditContent editOpenState (simulatedProduct 1 "B") 1).pendingApproval
        = editOpenState.pendingApproval ∧
      (handleEditContent editOpenState (simulatedProduct 1 "B") 1).inputText
        = editOpenState.inputText ∧
      (handleEditContent editOpenState (simulatedProduct 1 "B") 1).isLoading
        = editOpenState.isLoading :=
  c7_begin_edit_replaces_open_session editOpenState (simulatedProduct 0 "A")
    (simulatedProduct 1 "B") 1 rfl

/-! ## C3 -/

/-- C3: with a pending approval holding extraction data, resolving with
approved = true issues exactly one generation-submission call, whose
`approved_content` is exactly the `products` list held by the pending
approval at the moment of resolution (hence including any saved edits,
which `handleSaveEdit` writes back into `pendingApproval`), and the pending
approval is cleared. -/
theorem c3_approve_submits_exact_products :
    ∀ (s : AppState) (pa : Message) (mpd : MultiProductResponse) (now : Nat)
      (g : Except String String),
      s.pendingApproval = some pa → pa.multiProductData = some mpd →
      (handleApproval s true now g).2
          = [{ prompt := s.inputText, approved_content := mpd.products }] ∧
        (handleApproval s true now g).1.pendingApproval = none := by
  intro s pa mpd now g hpa hmpd
  cases g <;> simp [handleApproval, hpa, hmpd]

/-- A small concrete state with a pending approval, for witnesses. -/
def approvalMpd : MultiProductResponse := getSimulatedContent ["X", "Y"]

def approvalMsgW : Message :=
  { id := "9"
    text := "review"
    sender := .ai
    timestamp := 5
    approvalRequired := true
    multiProductData := some approvalMpd }

def approvalStateW : AppState :=
  { messages := [approvalMsgW]
    inputText := ""
    isLoading := false
    pendingApproval := some approvalMsgW
    editingProductIndex := none
    editingContent := none
    backendStatus := .available }

/-- Witness for C3 at a concrete pending-approval state. -/
theorem c3_approve_witness :
    (handleApproval approvalStateW true 7 (Except.ok "task-1")).2
        = [{ prompt := approvalStateW.inputText
             approved_content := approvalMpd.products }] ∧
      (handleApproval approvalStateW true 7 (Except.ok "task-1")).1.pendingApproval
        = none :=
  c3_approve_submits_exact_products approvalStateW approvalMsgW approvalMpd 7
    (Except.ok "task-1") rfl rfl

/-! ## C4 -/

/-- C4: one polling tick.  On status completed with a (truthy) download
reference, polling stops and the message list becomes the old list with
every in-progress marker removed plus exactly one appended success entry
carrying that reference.  On status failed, polling stops and exactly one
failure entry is appended whose text carries the job's error message, or
the fixed "Unknown error" when it is absent.  On a transport error the
interval is cleared at once (no retry) and one failure entry is emitted.
Non-terminal statuses (pending, processing) leave the messages unchanged
and keep the interval running. -/
theorem c4_poll_terminal_behavior :
    ∀ (msgs : List Message) (now : Nat) (st : TaskStatus) (e : String),
      (st.status = "completed" → jsTruthy st.download_url = true →
        (pollStep msgs now (.ok st)).2 = false ∧
        (pollStep msgs now (.ok st)).1
          = msgs.filter (fun m => !m.isGenerating) ++
            [{ id := toString (now + 4)
               text := "✨ Your presentation has been generated successfully!"
               sender := .ai
               timestamp := now
               pptDownloadUrl := st.download_url }]) ∧
      (st.status = "failed" →
        (pollStep msgs now (.ok st)).2 = false ∧
        (pollStep msgs now (.ok st)).1
          = msgs.filter (fun m => !m.isGenerating) ++
            [{ id := toString (now + 4)
               text := "❌ PPT generation failed: "
                 ++ jsOrElse st.error_message "Unknown error"
               sender := .ai
               timestamp := now }]) ∧
      ((pollStep msgs now (.transportError e)).2 = false ∧
        (pollStep msgs now (.transportError e)).1
          = msgs.filter (fun m => !m.isGenerating) ++
            [{ id := toString (now + 4)
               text := "❌ Error checking PPT status: " ++ e
               sender := .ai
               timestamp := now }]) ∧
      (st.status = "pending" ∨ st.status = "processing" →
        pollStep msgs now (.ok st) = (msgs, true)) := by
  intro msgs now st e
  refine ⟨?_, ?_, ?_, ?_⟩
  · intro hc hurl
    constructor <;> simp [pollStep, hc, hurl]
  · intro hf
    have hne : ("failed" : String) = "completed" ↔ False := by simp
    constructor <;> simp [pollStep, hf, hne]
  · constructor <;> simp [pollStep]
  · intro hnt
    rcases hnt with h | h <;> simp [pollStep, h]

/-- An in-progress marker entry, as appended by `handleApproval`. -/
def generatingEntryW : Message :=
  { id := "g1"
    text := "✅ Content approved! Generating your PowerPoint presentation..."
    sender := .ai
    timestamp := 0
    isGenerating := true }

/-- Witness for C4, instantiating each terminal branch and the
non-terminal branch at concrete statuses against a log holding one
in-progress marker. -/
theorem c4_poll_witness :
    ((pollStep [generatingEntryW] 0
        (.ok { status := "completed", download_url := some "http://d/1" })).2 = false ∧
      (pollStep [generatingEntryW] 0
        (.ok { status := "completed", download_url := some "http://d/1" })).1
        = [generatingEntryW].filter (fun m => !m.isGenerating) ++
          [{ id := toString (0 + 4)
             text := "✨ Your presentation has been generated successfully!"
             sender := .ai
             timestamp := 0
             pptDownloadUrl := some "http://d/1" }]) ∧
    ((pollStep [generatingEntryW] 0 (.ok { status := "failed" })).2 = false ∧
      (pollStep [generatingEntryW] 0 (.ok { status := "failed" })).1
        = [generatingEntryW].filter (fun m => !m.isGenerating) ++
          [{ id := toString (0 + 4)
             text := "❌ PPT generation failed: "
               ++ jsOrElse (none : Option String) "Unknown error"
             sender := .ai
             timestamp := 0 }]) ∧
    ((pollStep [generatingEntryW] 0 (.transportError "ECONNREFUSED")).2 = false ∧
      (pollStep [generatingEntryW] 0 (.transportError "ECONNREFUSED")).1
        = [generatingEntryW].filter (fun m => !m.isGenerating) ++
          [{ id := toString (0 + 4)
             text := "❌ Error checking PPT status: " ++ "ECONNREFUSED"
             sender := .ai
             timestamp := 0 }]) ∧
    pollStep [generatingEntryW] 0 (.ok { status := "processing" })
      = ([generatingEntryW], true) := by
  have h1 := c4_poll_terminal_behavior [generatingEntryW] 0
    { status := "completed", download_url := some "http://d/1" } "ECONNREFUSED"
  have h2 := c4_poll_terminal_behavior [generatingEntryW] 0
    { status := "failed" } "ECONNREFUSED"
  have h3 := c4_poll_terminal_behavior [generatingEntryW] 0
    { status := "processing" } "ECONNREFUSED"
  exact ⟨h1.1 rfl (by decide), h2.2.1 rfl, h1.2.2.1, h3.2.2.2 (Or.inr rfl)⟩

/-! ## C6 -/

/-- C6: beginning an edit on a valid index `i` of the pending approval's
products, bringing the working draft to `x`, and saving, yields a pending
approval whose product list holds `x` exactly at index `i` with every other
index unchanged; the id, sender, body text and timestamp of the entry
carrying the result are preserved, the log mutation is the targeted
replace-by-id of that entry, and the editing session is cleared. -/
theorem c6_begin_then_save_edit_frame :
    ∀ (s : AppState) (pa : Message) (mpd : MultiProductResponse)
      (c x : ProductContent) (i : Nat),
      s.pendingApproval = some pa → pa.multiProductData = some mpd →
      i < mpd.products.length →
      ∃ pa2 mpd2,
        (handleSaveEdit (setEditingDraft (handleEditContent s c i) x)).pendingApproval
            = some pa2 ∧
          pa2.multiProductData = some mpd2 ∧
          mpd2.products.get? i = some x ∧
          (∀ j : Nat, j ≠ i → mpd2.products.get? j = mpd.products.get? j) ∧
          pa2.id = pa.id ∧ pa2.sender = pa.sender ∧ pa2.text = pa.text ∧
          pa2.timestamp = pa.timestamp ∧
          (handleSaveEdit (setEditingDraft (handleEditContent s c i) x)).messages
            = s.messages.map (fun m => if m.id = pa.id then pa2 else m) ∧
          (handleSaveEdit (setEditingDraft (handleEditContent s c i) x)).editingContent
            = none ∧
          (handleSaveEdit (setEditingDraft (handleEditContent s c i) x)).editingProductIndex
            = none := by
  intro s pa mpd c x i hpa hmpd hi
  have hstep :
      setEditingDraft (handleEditContent s c i) x
        = { s with editingContent := some x, editingProductIndex := some i } := by
    simp [handleEditContent, setEditingDraft]
  rw [hstep]
  let mpd2 : MultiProductResponse :=
    { mpd with products := replaceFrom (some i) x 0 mpd.products }
  let pa2 : Message := { pa with multiProductData := some mpd2 }
  refine ⟨pa2, mpd2, ?_, rfl, ?_, ?_, rfl, rfl, rfl, rfl, ?_, ?_, ?_⟩
  · simp [handleSaveEdit, hpa, hmpd, pa2, mpd2]
  · show (replaceFrom (some i) x 0 mpd.products).get? i = some x
    have hsome : mpd.products.get? i = some (mpd.products.get ⟨i, hi⟩) :=
      List.get?_eq_get hi
    rw [replaceFrom_get? i x mpd.products 0 i, hsome]
    simp
  · intro j hj
    show (replaceFrom (some i) x 0 mpd.products).get? j = mpd.products.get? j
    rw [replaceFrom_get? i x mpd.products 0 j]
    cases h : mpd.products.get? j with
    | none => rfl
    | some p => simp [Ne.symm hj]
  · simp [handleSaveEdit, hpa, hmpd, pa2, mpd2]
  · simp [handleSaveEdit, hpa, hmpd]
  · simp [handleSaveEdit, hpa, hmpd]

/-- Witness for C6: edit index 0 of a two-product pending approval and save
a modified product. -/
theorem c6_save_edit_witness :
    ∃ pa2 mpd2,
      (handleSaveEdit (setEditingDraft
          (handleEditContent approvalStateW (simulatedProduct 0 "X") 0)
          (simulatedProduct 5 "Edited"))).pendingApproval = some pa2 ∧
        pa2.multiProductData = some mpd2 ∧
        mpd2.products.get? 0 = some (simulatedProduct 5 "Edited") ∧
        (∀ j : Nat, j ≠ 0 → mpd2.products.get? j = approvalMpd.products.get? j) ∧
        pa2.id = approvalMsgW.id ∧ pa2.sender = approvalMsgW.sender ∧
        pa2.text = approvalMsgW.text ∧ pa2.timestamp = approvalMsgW.timestamp ∧
        (handleSaveEdit (setEditingDraft
            (handleEditContent approvalStateW (simulatedProduct 0 "X") 0)
            (simulatedProduct 5 "Edited"))).messages
          = approvalStateW.messages.map
              (fun m => if m.id = approvalMsgW.id then pa2 else m) ∧
        (handleSaveEdit (setEditingDraft
            (handleEditContent approvalStateW (simulatedProduct 0 "X") 0)
            (simulatedProduct 5 "Edited"))).editingContent = none ∧
        (handleSaveEdit (setEditingDraft
            (handleEditContent approvalStateW (simulatedProduct 0 "X") 0)
            (simulatedProduct 5 "Edited"))).editingProductIndex = none :=
  c6_begin_then_save_edit_frame approvalStateW approvalMsgW approvalMpd
    (simulatedProduct 0 "X") (simulatedProduct 5 "Edited") 0 rfl rfl (by decide)

/-! ## C8 -/

/-- The log-mutation discipline the code actually follows: an operation
either extends the log at the end, performs the targeted replace-by-id, or
— on a terminal polling observation — removes the in-progress marker
entries and appends one terminal entry. -/
def LogEvolution (old new : List Message) : Prop :=
  (∃ tail, new = old ++ tail) ∨
  (∃ targetId repl, new = old.map (fun m => if m.id = targetId then repl else m)) ∨
  (∃ entry, new = old.filter (fun m => !m.isGenerating) ++ [entry])

/-- A concrete state holding one in-progress marker entry. -/
def markerStateW : AppState :=
  { messages := [generatingEntryW]
    inputText := ""
    isLoading := false
    pendingApproval := none
    editingProductIndex := none
    editingContent := none
    backendStatus := .available }

/-- C8 counterexample: the claim says no operation ever removes an entry,
but the polling tick that observes a completed job removes the in-progress
marker entry (its id "g1" is present before the tick and absent after). -/
theorem c8_counterexample_marker_removed :
    (markerStateW.messages.any (fun m => m.id = "g1")) = true ∧
      ((applyOp markerStateW
          (.poll 0 (.ok { status := "completed", download_url := some "http://d/1" }))).messages.any
        (fun m => m.id = "g1")) = false := by
  constructor <;> decide

/-- C8 amended: every operation of the workflow either appends at the end,
performs the single targeted replace-by-id that propagates an edited
extraction result, or — on a terminal polling observation (completed,
failed, or transport error) — removes the in-progress marker entries while
appending the single terminal entry; no other removal and no reordering
occurs. -/
theorem c8_log_mutation_discipline :
    ∀ (s : AppState) (op : AppOp), LogEvolution s.messages (applyOp s op).messages := by
  intro s op
  cases op with
  | setInput t => exact Or.inl ⟨[], by simp [applyOp]⟩
  | welcome now =>
    by_cases h : s.messages.isEmpty = true
    · rw [List.isEmpty_iff] at h
      exact Or.inl ⟨[welcomeMessage s.backendStatus now],
        by simp [applyOp, applyWelcome, h]⟩
    · exact Or.inl ⟨[], by simp [applyOp, applyWelcome, h]⟩
  | sendStart now =>
    by_cases hrj : sendRejected s = true
    · exact Or.inl ⟨[], by simp [applyOp, handleSendMessageStart, hrj]⟩
    · simp only [Bool.not_eq_true] at hrj
      by_cases hm : missingFields (extractPromptDetails s.inputText) = []
      · exact Or.inl ⟨[{ id := toString now
                         text := s.inputText
                         sender := .user
                         timestamp := now }],
          by simp [applyOp, handleSendMessageStart, hrj, hm]⟩
      · exact Or.inl ⟨[{ id := toString now
                         text := guidanceText
                           ((missingFields (extractPromptDetails s.inputText)).map (·.2))
                         sender := .ai
                         timestamp := now }],
          by simp [applyOp, handleSendMessageStart, hrj, hm]⟩
  | sendFinish now o =>
    cases o with
    | ok mpd =>
      exact Or.inl ⟨[{ id := toString (now + 1)
                       text := "I've extracted content for your products from the Lazulite website. Please review and approve:"
                       sender := .ai
                       timestamp := now
                       approvalRequired := true
                       multiProductData := some mpd }],
        by simp [applyOp, handleSendMessageFinish]⟩
    | err e =>
      exact Or.inl ⟨[{ id := toString (now + 1)
                       text := "❌ Failed to extract product content: " ++ e
                       sender := .ai
                       timestamp := now }],
        by simp [applyOp, handleSendMessageFinish]⟩
  | approval approved now g =>
    rcases hpa : s.pendingApproval with _ | pa
    · exact Or.inl ⟨[], by simp [applyOp, handleApproval, hpa]⟩
    · rcases hmpd : pa.multiProductData with _ | mpd
      · exact Or.inl ⟨[], by simp [applyOp, handleApproval, hpa, hmpd]⟩
      · cases approved with
        | false =>
          exact Or.inl ⟨[{ id := toString (now + 2)
                           text := "❌ Content not approved. You can modify the content using the edit options above, or provide new requirements."
                           sender := .ai
                           timestamp := now }],
            by simp [applyOp, handleApproval, hpa, hmpd]⟩
        | true =>
          cases g with
          | ok tid =>
            exact Or.inl ⟨[{ id := toString (now + 2)
                             text := "✅ Content approved! Generating your PowerPoint presentation..."
                             sender := .ai
                             timestamp := now
                             isGenerating := true }],
              by simp [applyOp, handleApproval, hpa, hmpd]⟩
          | error e =>
            exact Or.inl ⟨[{ id := toString (now + 2)
                             text := "✅ Content approved! Generating your PowerPoint presentation..."
                             sender := .ai
                             timestamp := now
                             isGenerating := true },
                           { id := toString (now + 3)
                             text := "❌ Failed to start PPT generation: " ++ e
                             sender := .ai
                             timestamp := now }],
              by simp [applyOp, handleApproval, hpa, hmpd]⟩
  | beginEdit c i => exact Or.inl ⟨[], by simp [applyOp, handleEditContent]⟩
  | draft x =>
    rcases hec : s.editingContent with _ | old
    · exact Or.inl ⟨[], by simp [applyOp, setEditingDraft, hec]⟩
    · exact Or.inl ⟨[], by simp [applyOp, setEditingDraft, hec]⟩
  | cancelEdit => exact Or.inl ⟨[], by simp [applyOp, handleCancelEdit]⟩
  | saveEdit =>
    rcases hec : s.editingContent with _ | ec
    · exact Or.inl ⟨[], by simp [applyOp, handleSaveEdit, hec]⟩
    · rcases hpa : s.pendingApproval with _ | pa
      · exact Or.inl ⟨[], by simp [applyOp, handleSaveEdit, hec, hpa]⟩
      · rcases hmpd : pa.multiProductData with _ | mpd
        · exact Or.inl ⟨[], by simp [applyOp, handleSaveEdit, hec, hpa, hmpd]⟩
        · refine Or.inr (Or.inl ?_)
          let mpd2 : MultiProductResponse :=
            { mpd with products := replaceFrom s.editingProductIndex ec 0 mpd.products }
          refine ⟨pa.id, { pa with multiProductData := some mpd2 }, ?_⟩
          simp [applyOp, handleSaveEdit, hec, hpa, hmpd, mpd2]
  | poll now r =>
    cases r with
    | transportError e =>
      exact Or.inr (Or.inr ⟨{ id := toString (now + 4)
                              text := "❌ Error checking PPT status: " ++ e
                              sender := .ai
                              timestamp := now },
        by simp [applyOp, pollStep]⟩)
    | ok st =>
      by_cases h1 : (st.status = "completed" && jsTruthy st.download_url) = true
      · exact Or.inr (Or.inr ⟨{ id := toString (now + 4)
                                text := "✨ Your presentation has been generated successfully!"
                                sender := .ai
                                timestamp := now
                                pptDownloadUrl := st.download_url },
          by simp only [applyOp, pollStep, h1, if_true]⟩)
      · simp only [Bool.not_eq_true] at h1
        by_cases h2 : st.status = "failed"
        · refine Or.inr (Or.inr ⟨{ id := toString (now + 4)
                                   text := "❌ PPT generation failed: "
                                     ++ jsOrElse st.error_message "Unknown error"
                                   sender := .ai
                                   timestamp := now }, ?_⟩)
          have hd : decide (("failed" : String) = "completed") = false := by decide
          simp only [applyOp, pollStep, h2, hd, Bool.false_and, Bool.false_eq_true,
            if_false, eq_self_iff_true, if_true]
        · exact Or.inl ⟨[],
            by simp only [applyOp, pollStep, h1, h2, Bool.false_eq_true, if_false,
              List.append_nil]⟩

/-! ## C9 -/

/-- C9 counterexample: for the input "Make slides for Dubai" the missing
labels computed by the code are Event Date, Event Location, Salesperson
Name, Products — not the claimed Event Name, Event Date, Salesperson Name,
Products.  The regex `(?:for|event|Event)\s*…` captures "Dubai" from the
"for Dubai" clause as the event name (present), while no "in"/"at" occurs
anywhere in the input, so the location is missing. -/
theorem c9_counterexample_missing_labels :
    (missingFields (extractPromptDetails "Make slides for Dubai")).map (·.2)
        = ["Event Date", "Event Location", "Salesperson Name", "Products"] ∧
      (extractPromptDetails "Make slides for Dubai").eventName = "Dubai" ∧
      (missingFields (extractPromptDetails "Make slides for Dubai")).map (·.2)
        ≠ ["Event Name", "Event Date", "Salesperson Name", "Products"] := by
  refine ⟨by decide, by decide, by decide⟩

/-- C9 amended: for the input "Make slides for Dubai" (with sending
enabled), sendPrompt appends exactly one guidance entry listing exactly
Event Date, Event Location, Salesperson Name, Products — the event name is
recognized as present ("Dubai", captured from the "for …" clause) and
omitted — clears the input, leaves no pending approval, and does not
invoke extraction. -/
theorem c9_dubai_guidance :
    ∀ (s : AppState) (now : Nat),
      s.inputText = "Make slides for Dubai" → s.isLoading = false →
      s.pendingApproval = none →
      (handleSendMessageStart s now).2 = none ∧
        (handleSendMessageStart s now).1.messages
          = s.messages ++
            [{ id := toString now
               text := guidanceText
                 ["Event Date", "Event Location", "Salesperson Name", "Products"]
               sender := .ai
               timestamp := now }] ∧
        (handleSendMessageStart s now).1.inputText = "" ∧
        (handleSendMessageStart s now).1.pendingApproval = s.pendingApproval ∧
        (handleSendMessageStart s now).1.isLoading = s.isLoading := by
  intro s now hin hld hpa
  have hrj : sendRejected s = false := by
    simp only [sendRejected, hin, hld, hpa]
    decide
  have hm : missingFields (extractPromptDetails s.inputText)
      = [("eventDate", "Event Date"), ("eventLocation", "Event Location"),
         ("salesperson", "Salesperson Name"), ("products", "Products")] := by
    rw [hin]; decide
  refine ⟨?_, ?_, ?_, ?_, ?_⟩ <;>
    simp [handleSendMessageStart, hrj, hm, guidanceText]

/-- A state about to send "Make slides for Dubai". -/
def dubaiStateW : AppState :=
  { messages := []
    inputText := "Make slides for Dubai"
    isLoading := false
    pendingApproval := none
    editingProductIndex := none
    editingContent := none
    backendStatus := .unavailable }

/-- Witness for C9's amended theorem at a concrete state. -/
theorem c9_dubai_witness :
    (handleSendMessageStart dubaiStateW 42).2 = none ∧
      (handleSendMessageStart dubaiStateW 42).1.messages
        = dubaiStateW.messages ++
          [{ id := toString 42
             text := guidanceText
               ["Event Date", "Event Location", "Salesperson Name", "Products"]
             sender := .ai
             timestamp := 42 }] ∧
      (handleSendMessageStart dubaiStateW 42).1.inputText = "" ∧
      (handleSendMessageStart dubaiStateW 42).1.pendingApproval
        = dubaiStateW.pendingApproval ∧
      (handleSendMessageStart dubaiStateW 42).1.isLoading = dubaiStateW.isLoading :=
  c9_dubai_guidance dubaiStateW 42 rfl rfl rfl

/-! ## The cleared-input invariant and C2, C10 -/

/-- In every reachable state, while an extraction is loading or an approval
is pending, the input text is empty: `handleSendMessage` clears it before
raising `isLoading`, the textarea is disabled throughout, and no operation
restores it before the approval resolves. -/
lemma reachable_input_empty :
    ∀ s : AppState, Reachable s →
      (s.isLoading = true ∨ s.pendingApproval.isSome = true) → s.inputText = "" := by
  intro s hr
  induction hr with
  | init backendStatus => intro _h; rfl
  | step op hrs hop ih =>
    rename_i s0
    intro h
    cases op with
    | setInput t =>
      exfalso
      simp only [opAllowed, Bool.not_eq_true', Bool.or_eq_false_iff] at hop
      simp only [applyOp] at h
      rcases h with h | h
      · rw [hop.1.1] at h; exact Bool.false_ne_true h
      · rw [hop.1.2] at h; exact Bool.false_ne_true h
    | welcome now =>
      by_cases hw : s0.messages.isEmpty = true <;>
        · simp only [applyOp, applyWelcome, hw, Bool.false_eq_true, if_true, if_false] at h ⊢
          exact ih h
    | sendStart now =>
      by_cases hrj : sendRejected s0 = true
      · simp only [applyOp, handleSendMessageStart, hrj, if_true] at h ⊢
        exact ih h
      · simp only [Bool.not_eq_true] at hrj
        by_cases hm : missingFields (extractPromptDetails s0.inputText) = [] <;>
          simp [applyOp, handleSendMessageStart, hrj, hm]
    | sendFinish now o =>
      simp only [opAllowed] at hop
      have hin : s0.inputText = "" := ih (Or.inl hop)
      cases o <;> simp [applyOp, handleSendMessageFinish, hin]
    | approval approved now g =>
      rcases hpa : s0.pendingApproval with _ | pa
      · simp only [applyOp, handleApproval, hpa] at h ⊢
        rw [← hpa] at h
        exact ih h
      · rcases hmpd : pa.multiProductData with _ | mpd
        · simp only [applyOp, handleApproval, hpa, hmpd] at h ⊢
          rw [← hpa] at h
          exact ih h
        · have hin : s0.inputText = "" := ih (Or.inr (by simp [hpa]))
          cases approved <;> cases g <;>
            simp [applyOp, handleApproval, hpa, hmpd, hin]
    | beginEdit c i =>
      simp only [applyOp, handleEditContent] at h ⊢
      exact ih h
    | draft x =>
      rcases hec : s0.editingContent with _ | old <;>
        · simp only [applyOp, setEditingDraft, hec] at h ⊢
          exact ih h
    | saveEdit =>
      rcases hec : s0.editingContent with _ | ec
      · simp only [applyOp, handleSaveEdit, hec] at h ⊢
        exact ih h
      · rcases hpa : s0.pendingApproval with _ | pa
        · simp only [applyOp, handleSaveEdit, hec, hpa] at h ⊢
          rw [← hpa] at h
          exact ih h
        · rcases hmpd : pa.multiProductData with _ | mpd
          · simp only [applyOp, handleSaveEdit, hec, hpa, hmpd] at h ⊢
            rw [← hpa] at h
            exact ih h
          · have hin : s0.inputText = "" := ih (Or.inr (by simp [hpa]))
            simp [applyOp, handleSaveEdit, hec, hpa, hmpd, hin]
    | cancelEdit =>
      simp only [applyOp, handleCancelEdit] at h ⊢
      exact ih h
    | poll now r =>
      simp only [applyOp] at h ⊢
      exact ih h

/-- C2: in every reachable state at most one pending approval exists (it is
a single optional holder), and while one exists — or while an extraction is
loading — the send action is rejected by its guard: it returns the state
unchanged, appends nothing, and issues no extraction request. -/
theorem c2_single_pending_and_send_rejected :
    ∀ s : AppState, Reachable s →
      pendingCount s ≤ 1 ∧
        (∀ now : Nat, s.pendingApproval.isSome = true ∨ s.isLoading = true →
          handleSendMessageStart s now = (s, none)) := by
  intro s _hr
  refine ⟨?_, ?_⟩
  · cases h : s.pendingApproval <;> simp [pendingCount, h]
  · intro now h
    have hrj : sendRejected s = true := by
      rcases h with h | h <;> simp [sendRejected, h]
    simp [handleSendMessageStart, hrj]

/-! ## A reachable trace into a pending-approval state -/

/-- A complete prompt: all five fields are recognized by the extraction
regexes. -/
def tracePrompt : String :=
  "for Gala on August 11, 2025 in Dubai featuring Sam products: Widget"

def traceState0 : AppState := initState .unavailable

def traceState1 : AppState := applyOp traceState0 (.setInput tracePrompt)

def traceState2 : AppState := applyOp traceState1 (.sendStart 100)

def traceMpd : MultiProductResponse := getSimulatedContent ["Widget"]

def traceState3 : AppState := applyOp traceState2 (.sendFinish 200 (.ok traceMpd))

lemma reachable_traceState3 : Reachable traceState3 := by
  have h0 : Reachable traceState0 := Reachable.init .unavailable
  have h1 : Reachable traceState1 :=
    Reachable.step (.setInput tracePrompt) h0 (by decide)
  have h2 : Reachable traceState2 :=
    Reachable.step (.sendStart 100) h1 (by decide)
  exact Reachable.step (.sendFinish 200 (.ok traceMpd)) h2 (by decide)

/-- Witness for C2 at a reachable state holding a pending approval. -/
theorem c2_witness :
    pendingCount traceState3 ≤ 1 ∧
      handleSendMessageStart traceState3 999 = (traceState3, none) := by
  have h := c2_single_pending_and_send_rejected traceState3 reachable_traceState3
  exact ⟨h.1, h.2 999 (Or.inl (by decide))⟩

/-- C10 (implicit): every generation-submission call issued by resolving an
approval carries the empty string as its prompt — the input was cleared
when the prompt was sent and stays disabled until resolution, so the user's
original prompt text is never forwarded to the generation service. -/
theorem c10_submitted_prompt_always_empty :
    ∀ s : AppState, Reachable s → ∀ (now : Nat) (g : Except String String),
      ((handleApproval s true now g).2).all (fun call => call.prompt == "") = true := by
  intro s hr now g
  rcases hpa : s.pendingApproval with _ | pa
  · simp [handleApproval, hpa]
  · rcases hmpd : pa.multiProductData with _ | mpd
    · simp [handleApproval, hpa, hmpd]
    · have hin : s.inputText = "" := reachable_input_empty s hr (Or.inr (by simp [hpa]))
      cases g <;> simp [handleApproval, hpa, hmpd, hin]

/-- Witness for C10 at the reachable pending-approval state. -/
theorem c10_witness :
    ((handleApproval traceState3 true 300 (Except.ok "task-9")).2).all
        (fun call => call.prompt == "") = true :=
  c10_submitted_prompt_always_empty traceState3 reachable_traceState3 300
    (Except.ok "task-9")
